import Mathlib

/-!
Shallow embedding of `custom_components/template_water_heater/water_heater.py`
(the `ComplexWaterHeater` entity of the `template_water_heater` integration).

The adapter wraps a switch entity and a temperature sensor entity of the host
home-automation platform.  We embed its in-memory state as a record, and each
callback (`_async_update_temp`, `_async_sensor_changed`,
`async_state_changed_listener`, `_async_startup`, `async_turn_on`,
`async_turn_off`, `async_set_operation_mode`) as a pure function from the
callback's external inputs (the event payload or the state-machine lookup
result) and the prior record to the new record together with its observable
effects (error-log entries, host state writes, forwarded service calls).

Temperatures are embedded as rationals: the Python code stores the parsed
finite float; we abstract a finite float value as a rational and classify a
sensor state string by the outcome Python's `float()` / `math.isnan` /
`math.isinf` give on it.
-/

/-- Embeds `homeassistant.const.STATE_ON`. -/
def STATE_ON : String := "on"

/-- Embeds `homeassistant.const.STATE_OFF`. -/
def STATE_OFF : String := "off"

/-- Embeds `homeassistant.const.STATE_UNAVAILABLE`. -/
def STATE_UNAVAILABLE : String := "unavailable"

/-- Embeds `homeassistant.const.STATE_UNKNOWN`. -/
def STATE_UNKNOWN : String := "unknown"

/-- Embeds `homeassistant.components.water_heater.STATE_ELECTRIC`. -/
def STATE_ELECTRIC : String := "electric"

/-- Embeds `homeassistant.const.SERVICE_TURN_ON`. -/
def SERVICE_TURN_ON : String := "turn_on"

/-- Embeds `homeassistant.const.SERVICE_TURN_OFF`. -/
def SERVICE_TURN_OFF : String := "turn_off"

/-- Modelled from the spec: `SWITCH_DOMAIN` is imported from the
integration's `const.py`, which is not among the given source files; the
spec says the switch entity id must belong to the switch domain. -/
def SWITCH_DOMAIN : String := "switch"

/-- Modelled from the spec: `SENSOR_DOMAIN` is imported from the
integration's `const.py`, which is not among the given source files; the
spec says the sensor entity id must belong to the sensor domain. -/
def SENSOR_DOMAIN : String := "sensor"

/-- Modelled from the spec: `ROOM_TEMP` is imported from the integration's
`const.py`, which is not among the given source files; the spec calls it
"a fixed room-temperature constant" (the temperature unit is Celsius). -/
def ROOM_TEMP : ℚ := 25

/-- Modelled from the spec: `BOIL_TEMP` is imported from the integration's
`const.py`, which is not among the given source files; the spec calls it
"a fixed boiling-point constant" (the temperature unit is Celsius). -/
def BOIL_TEMP : ℚ := 100

/-- Classification of a sensor entity's state string by how the Python code
treats it.  `finite v` stands for a string that `float()` parses to the
finite value `v`; `nonFinite` for a string `float()` parses to NaN or an
infinity (such as "nan" or "inf"); `nonNumeric` for a string on which
`float()` raises `ValueError` and that is neither the distinguished
`STATE_UNAVAILABLE` nor `STATE_UNKNOWN` string, which get their own
constructors because `_async_sensor_changed` and `_async_startup` compare
the raw string against them before any parsing. -/
inductive SensorState where
  | unavailable
  | unknown
  | finite (v : ℚ)
  | nonFinite
  | nonNumeric
deriving DecidableEq, Repr

/-- The in-memory state of a `ComplexWaterHeater` instance: the fields set
in `__init__` plus the `_attr_available` flag (defaulting to `True` on the
host's `Entity` base class) and the `_attr_is_on` flag, which `__init__`
never sets; we embed the latter as an `Option Bool` that is `none` until the
switch listener first assigns it. -/
structure ComplexWaterHeater where
  attr_name : String
  attr_unique_id : Option String
  attr_min_temp : ℚ
  attr_max_temp : ℚ
  switch_entity_id : String
  temperature_entity_id : String
  cur_temp : Option ℚ
  attr_is_on : Option Bool
  attr_available : Bool
deriving DecidableEq, Repr

namespace ComplexWaterHeater

/-- `ComplexWaterHeater.__init__`: stores the configuration and sets
`_cur_temp = None`; `_attr_is_on` is left unset and `_attr_available`
keeps the base-class default `True`. -/
def init (name : String) (switch_entity_id : String)
    (temperature_entity_id : String) (min_temp max_temp : ℚ)
    (unique_id : Option String) : ComplexWaterHeater :=
  { attr_name := name
    attr_unique_id := unique_id
    attr_min_temp := min_temp
    attr_max_temp := max_temp
    switch_entity_id := switch_entity_id
    temperature_entity_id := temperature_entity_id
    cur_temp := none
    attr_is_on := none
    attr_available := true }

/-- Python truthiness of the embedded `_attr_is_on` attribute: `None` is
falsy, a boolean is its own truth value. -/
def truthyIsOn (self : ComplexWaterHeater) : Bool :=
  match self.attr_is_on with
  | none => false
  | some b => b

/-- The `min_temp` property: returns the constant `ROOM_TEMP`. -/
def min_temp (_self : ComplexWaterHeater) : ℚ := ROOM_TEMP

/-- The `max_temp` property: returns the constant `BOIL_TEMP`. -/
def max_temp (_self : ComplexWaterHeater) : ℚ := BOIL_TEMP

/-- The `current_temperature` property: returns `self._cur_temp`. -/
def current_temperature (self : ComplexWaterHeater) : Option ℚ :=
  self.cur_temp

/-- The `target_temperature` property:
`self.max_temp if self._attr_is_on else self.min_temp`. -/
def target_temperature (self : ComplexWaterHeater) : ℚ :=
  if self.truthyIsOn then self.max_temp else self.min_temp

/-- The `current_operation` property:
`STATE_ELECTRIC if self._attr_is_on else STATE_OFF`. -/
def current_operation (self : ComplexWaterHeater) : String :=
  if self.truthyIsOn then STATE_ELECTRIC else STATE_OFF

/-- `_async_update_temp`: tries `float(state.state)`, raises `ValueError`
on NaN or infinity, stores the value on success; any `ValueError` (from the
parse or from the finiteness check) is caught and logged with
`_LOGGER.error`.  Returns the new record and the number of error-log
entries emitted. -/
def update_temp (self : ComplexWaterHeater) (state : SensorState) :
    ComplexWaterHeater × ℕ :=
  match state with
  | .finite v => ({ self with cur_temp := some v }, 0)
  | .nonFinite => (self, 1)
  | .nonNumeric => (self, 1)
  | .unavailable => (self, 1)
  | .unknown => (self, 1)

/-- `_async_sensor_changed`: the event carries `new_state` (possibly
`None`).  A missing state or one whose string is `STATE_UNAVAILABLE` or
`STATE_UNKNOWN` returns early; otherwise `_async_update_temp` runs and a
host state write (`async_write_ha_state`) follows.  Returns the new record,
the number of error-log entries and the number of host state writes. -/
def sensor_changed (self : ComplexWaterHeater) (new_state : Option SensorState) :
    ComplexWaterHeater × ℕ × ℕ :=
  match new_state with
  | none => (self, 0, 0)
  | some s =>
    if s = .unavailable ∨ s = .unknown then (self, 0, 0)
    else
      let r := self.update_temp s
      (r.1, r.2, 1)

/-- `async_state_changed_listener` (defined inside `async_added_to_hass`):
looks the switch entity up in the host state machine; on `None` or the
`STATE_UNAVAILABLE` state it sets `_attr_available = False` and returns;
otherwise it sets `_attr_available = True`,
`_attr_is_on = (state.state == STATE_ON)` and writes the host state.
Returns the new record and the number of host state writes. -/
def state_changed_listener (self : ComplexWaterHeater)
    (lookup : Option String) : ComplexWaterHeater × ℕ :=
  match lookup with
  | none => ({ self with attr_available := false }, 0)
  | some s =>
    if s = STATE_UNAVAILABLE then ({ self with attr_available := false }, 0)
    else
      ({ self with attr_available := true, attr_is_on := some (s == STATE_ON) }, 1)

/-- `_async_startup` (defined inside `async_added_to_hass`): looks the
sensor entity up in the host state machine; if it is present and its state
is neither `STATE_UNAVAILABLE` nor `STATE_UNKNOWN`, runs
`_async_update_temp` on it and writes the host state.  Returns the new
record, the number of error-log entries and the number of host state
writes. -/
def startup (self : ComplexWaterHeater) (sensor_state : Option SensorState) :
    ComplexWaterHeater × ℕ × ℕ :=
  match sensor_state with
  | none => (self, 0, 0)
  | some s =>
    if s = .unavailable ∨ s = .unknown then (self, 0, 0)
    else
      let r := self.update_temp s
      (r.1, r.2, 1)

end ComplexWaterHeater

/-- A host service call as issued through `hass.services.async_call`:
target domain, service name, and the entity id passed as `ATTR_ENTITY_ID`. -/
structure ServiceCall where
  domain : String
  service : String
  entity_id : String
deriving DecidableEq, Repr

namespace ComplexWaterHeater

/-- `async_turn_on`: forwards one blocking `turn_on` service call to the
switch domain targeting the configured switch entity id. -/
def turn_on (self : ComplexWaterHeater) : List ServiceCall :=
  [⟨SWITCH_DOMAIN, SERVICE_TURN_ON, self.switch_entity_id⟩]

/-- `async_turn_off`: forwards one blocking `turn_off` service call to the
switch domain targeting the configured switch entity id. -/
def turn_off (self : ComplexWaterHeater) : List ServiceCall :=
  [⟨SWITCH_DOMAIN, SERVICE_TURN_OFF, self.switch_entity_id⟩]

/-- The effects of `async_set_operation_mode`: the forwarded service calls
and the dispatcher signals broadcast afterwards via
`async_dispatcher_send`. -/
structure ModeEffects where
  service_calls : List ServiceCall
  dispatcher_sends : List String
deriving DecidableEq, Repr

/-- `async_set_operation_mode`: on `STATE_OFF` awaits `async_turn_off`,
on any other argument awaits `async_turn_on`; afterwards it schedules an
`async_dispatcher_send` of the signal string "update". -/
def set_operation_mode (self : ComplexWaterHeater) (operation_mode : String) :
    ModeEffects :=
  { service_calls :=
      if operation_mode = STATE_OFF then self.turn_off else self.turn_on
    dispatcher_sends := ["update"] }

end ComplexWaterHeater

/-- Processing a finite sequence of sensor state-change events, each
delivered to `_async_sensor_changed`, from a given adapter state. -/
def processSensorEvents (a : ComplexWaterHeater)
    (events : List (Option SensorState)) : ComplexWaterHeater :=
  events.foldl (fun acc e => (acc.sensor_changed e).1) a

/-- One step of the specification fold: an event carrying a state that
parses as a finite float replaces the accumulator, any other event leaves
it. -/
def lastFiniteStep (acc : Option ℚ) (e : Option SensorState) : Option ℚ :=
  match e with
  | some (.finite v) => some v
  | _ => acc

/-- The value of the most recent event in the sequence whose state string
parses as a finite float, `none` when no such event occurred. -/
def lastFiniteReading (events : List (Option SensorState)) : Option ℚ :=
  events.foldl lastFiniteStep none

/-- A concrete fully configured adapter used to instantiate the universal
theorems below: configured bounds 40 and 60, chosen distinct from
`ROOM_TEMP` and `BOIL_TEMP`. -/
def sampleHeater : ComplexWaterHeater :=
  ComplexWaterHeater.init "Complex Water Heater" "switch.boiler"
    "sensor.boiler_temperature" 40 60 none

/-- C1 counterexample: an adapter configured with maximum bound 60 whose
last-seen switch state is "on" reports operation "electric" but a target
temperature different from its configured maximum bound (the `max_temp`
property returns the fixed constant `BOIL_TEMP`, ignoring the configured
value). -/
theorem C1_counterexample :
    ((sampleHeater.state_changed_listener (some STATE_ON)).1).current_operation
        = STATE_ELECTRIC ∧
    ((sampleHeater.state_changed_listener (some STATE_ON)).1).target_temperature
        ≠ sampleHeater.attr_max_temp := by
  decide

/-- C1 (amended): whenever the last-seen switch state is "on" the adapter
reports operation "electric" and target temperature `BOIL_TEMP` (the fixed
boiling-point constant, not the configured maximum); whenever it is "off"
it reports operation "off" and target temperature `ROOM_TEMP` (the fixed
room-temperature constant, not the configured minimum). -/
theorem C1_amended (a : ComplexWaterHeater) :
    (((a.state_changed_listener (some STATE_ON)).1).current_operation = STATE_ELECTRIC ∧
      ((a.state_changed_listener (some STATE_ON)).1).target_temperature = BOIL_TEMP) ∧
    (((a.state_changed_listener (some STATE_OFF)).1).current_operation = STATE_OFF ∧
      ((a.state_changed_listener (some STATE_OFF)).1).target_temperature = ROOM_TEMP) := by
  refine ⟨⟨?_, ?_⟩, ⟨?_, ?_⟩⟩ <;>
    simp [ComplexWaterHeater.state_changed_listener, ComplexWaterHeater.current_operation,
      ComplexWaterHeater.target_temperature, ComplexWaterHeater.truthyIsOn,
      ComplexWaterHeater.max_temp, ComplexWaterHeater.min_temp,
      STATE_ON, STATE_OFF, STATE_UNAVAILABLE, STATE_ELECTRIC]

/-- Helper: the stored `_cur_temp` after a block of sensor events is the
fold of the last-finite-reading step over the events, started from the
prior stored value. -/
theorem curTemp_processSensorEvents (events : List (Option SensorState)) :
    ∀ a : ComplexWaterHeater,
      (processSensorEvents a events).cur_temp =
        events.foldl lastFiniteStep a.cur_temp := by
  induction events with
  | nil => intro a; rfl
  | cons e es ih =>
    intro a
    have hstep : ((a.sensor_changed e).1).cur_temp = lastFiniteStep a.cur_temp e := by
      cases e with
      | none => rfl
      | some s =>
        cases s <;>
          simp [ComplexWaterHeater.sensor_changed, ComplexWaterHeater.update_temp,
            lastFiniteStep]
    calc (processSensorEvents a (e :: es)).cur_temp
        = (processSensorEvents ((a.sensor_changed e).1) es).cur_temp := rfl
      _ = es.foldl lastFiniteStep ((a.sensor_changed e).1).cur_temp := ih _
      _ = es.foldl lastFiniteStep (lastFiniteStep a.cur_temp e) := by rw [hstep]
      _ = (e :: es).foldl lastFiniteStep a.cur_temp := rfl

/-- C2 (confirmed): for every finite sequence of sensor state-change
events processed by `_async_sensor_changed` starting from a freshly
constructed adapter, `current_temperature` equals the value of the most
recent event in the sequence whose state string parses as a finite float,
and is `none` if no such event has occurred. -/
theorem C2_confirmed (name sw te : String) (mn mx : ℚ) (uid : Option String)
    (events : List (Option SensorState)) :
    (processSensorEvents (ComplexWaterHeater.init name sw te mn mx uid)
        events).current_temperature = lastFiniteReading events := by
  rw [ComplexWaterHeater.current_temperature, curTemp_processSensorEvents,
    lastFiniteReading]
  rfl

/-- C3 (confirmed): for every sensor state whose string does not parse as
a finite float (non-numeric, NaN, or infinite), `_async_update_temp`
leaves the adapter record, and in particular `_cur_temp`, unchanged and
emits exactly one error-log entry. -/
theorem C3_confirmed (self : ComplexWaterHeater) (s : SensorState)
    (h : ∀ v : ℚ, s ≠ .finite v) :
    self.update_temp s = (self, 1) := by
  cases s with
  | finite v => exact absurd rfl (h v)
  | unavailable => rfl
  | unknown => rfl
  | nonFinite => rfl
  | nonNumeric => rfl

/-- Witness for C3 at the non-numeric reading on a concrete adapter. -/
theorem C3_witness :
    sampleHeater.update_temp .nonNumeric = (sampleHeater, 1) :=
  C3_confirmed sampleHeater .nonNumeric (fun _ h => SensorState.noConfusion h)

/-- C4 (confirmed): whenever the switch entity lookup returns `none` or
the state "unavailable", the listener sets `_attr_available` to `false`,
regardless of any other adapter field. -/
theorem C4_confirmed (self : ComplexWaterHeater) (lookup : Option String)
    (h : lookup = none ∨ lookup = some STATE_UNAVAILABLE) :
    ((self.state_changed_listener lookup).1).attr_available = false := by
  rcases h with h | h <;> subst h <;>
    simp [ComplexWaterHeater.state_changed_listener]

/-- Witness for C4 at the "unavailable" lookup on a concrete adapter. -/
theorem C4_witness :
    ((sampleHeater.state_changed_listener (some STATE_UNAVAILABLE)).1).attr_available
      = false :=
  C4_confirmed sampleHeater (some STATE_UNAVAILABLE) (Or.inr rfl)

/-- C5 (confirmed): `async_set_operation_mode` with mode "off" issues
exactly one service call, a `turn_off` to the switch domain targeting the
configured switch entity id, and no other. -/
theorem C5_confirmed (self : ComplexWaterHeater) :
    (self.set_operation_mode STATE_OFF).service_calls
      = [⟨SWITCH_DOMAIN, SERVICE_TURN_OFF, self.switch_entity_id⟩] := by
  simp [ComplexWaterHeater.set_operation_mode, ComplexWaterHeater.turn_off]

/-- C6 counterexample: an "unavailable" sensor reading delivered to
`_async_sensor_changed` is not logged at all (the handler returns before
`_async_update_temp` runs), contradicting the claim that such readings are
logged the same as invalid or non-finite readings. -/
theorem C6_counterexample :
    ¬ 0 < ((sampleHeater.sensor_changed (some SensorState.unavailable)).2.1) := by
  decide

/-- C6 (amended): a sensor reading that is unknown, unavailable, or
missing leaves the adapter record (in particular the previously reported
temperature) unchanged, and is silently ignored: no error-log entry and no
host state write are emitted, unlike invalid or non-finite readings, which
are logged. -/
theorem C6_amended (self : ComplexWaterHeater) (e : Option SensorState)
    (h : e = none ∨ e = some .unavailable ∨ e = some .unknown) :
    self.sensor_changed e = (self, 0, 0) := by
  rcases h with h | h | h <;> subst h <;>
    simp [ComplexWaterHeater.sensor_changed]

/-- Witness for C6 at the "unavailable" reading on a concrete adapter. -/
theorem C6_witness :
    sampleHeater.sensor_changed (some .unavailable) = (sampleHeater, 0, 0) :=
  C6_amended sampleHeater (some .unavailable) (Or.inr (Or.inl rfl))

/-- C7 counterexample: two adapters whose wrapped switch most recently
published the same state ("unavailable") end up with different on/off
flags after the notification is processed, so the in-memory state is not a
pure projection of the switch entity's most recent state: the on/off flag
retains its pre-outage value instead of reflecting that state. -/
theorem C7_counterexample :
    (({ sampleHeater with attr_is_on := some true }.state_changed_listener
          (some STATE_UNAVAILABLE)).1).attr_is_on
      ≠ (({ sampleHeater with attr_is_on := some false }.state_changed_listener
          (some STATE_UNAVAILABLE)).1).attr_is_on := by
  decide

/-- C7 (amended): once a delivered notification finds the switch entity
present with a state other than "unavailable", the adapter's in-memory
state is a pure projection of that most recent state: availability is
`true` and the on/off flag equals the comparison of that state with "on".
(When the state is absent or "unavailable" only availability is projected;
the on/off flag keeps its previous, possibly stale, value.) -/
theorem C7_amended (self : ComplexWaterHeater) (s : String)
    (h : s ≠ STATE_UNAVAILABLE) :
    ((self.state_changed_listener (some s)).1).attr_available = true ∧
    ((self.state_changed_listener (some s)).1).attr_is_on = some (s == STATE_ON) := by
  constructor <;> simp [ComplexWaterHeater.state_changed_listener, h]

/-- Witness for C7 at the "on" state on a concrete adapter. -/
theorem C7_witness :
    ((sampleHeater.state_changed_listener (some STATE_ON)).1).attr_available = true ∧
    ((sampleHeater.state_changed_listener (some STATE_ON)).1).attr_is_on
      = some (STATE_ON == STATE_ON) :=
  C7_amended sampleHeater STATE_ON (by decide)

/-- C8 counterexample: at startup the sensor holds a present state that is
neither "unavailable" nor "unknown" but does not parse as a float; the
state is not adopted: the current temperature stays unset. -/
theorem C8_counterexample :
    ((sampleHeater.startup (some SensorState.nonNumeric)).1).current_temperature
      = none ∧
    some SensorState.nonNumeric ≠ (none : Option SensorState) ∧
    SensorState.nonNumeric ≠ SensorState.unavailable ∧
    SensorState.nonNumeric ≠ SensorState.unknown := by
  decide

/-- C8 (amended): when the startup handler finds the sensor already
holding a state that is present, neither "unavailable" nor "unknown", and
parses as a finite float, that value is adopted as the current temperature
immediately, with a host state write and no error log, without requiring a
subsequent sensor state-change event. -/
theorem C8_amended (self : ComplexWaterHeater) (v : ℚ) :
    self.startup (some (.finite v)) = ({ self with cur_temp := some v }, 0, 1) := by
  simp [ComplexWaterHeater.startup, ComplexWaterHeater.update_temp]

/-- C9 (confirmed): when the switch lookup is absent or "unavailable",
the listener changes nothing but the availability flag — the on/off flag,
the stored temperature and every configuration field keep their values,
`current_operation` and `target_temperature` report the pre-outage mode,
and no host state write is performed. -/
theorem C9_confirmed (self : ComplexWaterHeater) (lookup : Option String)
    (h : lookup = none ∨ lookup = some STATE_UNAVAILABLE) :
    self.state_changed_listener lookup = ({ self with attr_available := false }, 0) ∧
    ((self.state_changed_listener lookup).1).current_operation
      = self.current_operation ∧
    ((self.state_changed_listener lookup).1).target_temperature
      = self.target_temperature := by
  have hmain : self.state_changed_listener lookup
      = ({ self with attr_available := false }, 0) := by
    rcases h with h | h <;> subst h <;>
      simp [ComplexWaterHeater.state_changed_listener]
  refine ⟨hmain, ?_, ?_⟩ <;>
    rw [hmain] <;>
    simp [ComplexWaterHeater.current_operation, ComplexWaterHeater.target_temperature,
      ComplexWaterHeater.truthyIsOn, ComplexWaterHeater.max_temp,
      ComplexWaterHeater.min_temp]

/-- Witness for C9 at an absent switch lookup on a concrete adapter. -/
theorem C9_witness :
    sampleHeater.state_changed_listener none
      = ({ sampleHeater with attr_available := false }, 0) ∧
    ((sampleHeater.state_changed_listener none).1).current_operation
      = sampleHeater.current_operation ∧
    ((sampleHeater.state_changed_listener none).1).target_temperature
      = sampleHeater.target_temperature :=
  C9_confirmed sampleHeater none (Or.inl rfl)

/-- C10 (confirmed): for every operation mode other than "off" — any
string, advertised or not — `async_set_operation_mode` issues exactly the
one `turn_on` service call to the switch domain targeting the configured
switch entity id, and never rejects the argument. -/
theorem C10_confirmed (self : ComplexWaterHeater) (operation_mode : String)
    (h : operation_mode ≠ STATE_OFF) :
    (self.set_operation_mode operation_mode).service_calls
      = [⟨SWITCH_DOMAIN, SERVICE_TURN_ON, self.switch_entity_id⟩] := by
  simp [ComplexWaterHeater.set_operation_mode, ComplexWaterHeater.turn_on, h]

/-- Witness for C10 at a mode string outside the advertised operation
list. -/
theorem C10_witness :
    (sampleHeater.set_operation_mode "gas").service_calls
      = [⟨SWITCH_DOMAIN, SERVICE_TURN_ON, sampleHeater.switch_entity_id⟩] :=
  C10_confirmed sampleHeater "gas" (by decide)
